import Mathlib

/-!
Verification of the Daikin Skyport integration core
(`custom_components/daikinskyport/daikinskyport.py` and
`custom_components/daikinskyport/climate.py`) against its specification.

Device records are JSON-like Python dicts.  We embed them as association
lists of string keys and dynamically typed values, with first-occurrence
lookup and in-place overwrite, mirroring Python dict semantics (a dict
never actually holds duplicate keys; on lists with duplicates all
operations consistently use the first occurrence).
-/

/-- A dynamically typed JSON/Python value as stored in a device record.
Python floats are modelled as rationals. -/
inductive Value where
  | int (n : ℤ)
  | rat (q : ℚ)
  | bool (b : Bool)
  | str (s : String)
  | null
deriving DecidableEq, Repr

/-- Numeric view of a value: Python treats `bool` as an `int` subtype, so
`True == 1` holds; ints and floats compare by value. -/
def Value.toNum : Value → Option ℚ
  | .int n => some (n : ℚ)
  | .rat q => some q
  | .bool b => some (if b then 1 else 0)
  | _ => none

/-- Python `==` on the values we model: numerics (int/float/bool) compare
by numeric value, strings by content, `None` only to `None`. -/
def pyEq (a b : Value) : Bool :=
  match a.toNum, b.toNum with
  | some x, some y => x = y
  | _, _ =>
    match a, b with
    | .str s, .str t => s = t
    | .null, .null => true
    | _, _ => false

/-- Python truthiness: `None`/`False`/`0`/`0.0`/empty string are falsy. -/
def truthy : Value → Bool
  | .int n => n ≠ 0
  | .rat q => q ≠ 0
  | .bool b => b
  | .str s => s ≠ ""
  | .null => false

/-- A device record: a Python dict from vendor field names to values. -/
abbrev Record := List (String × Value)

namespace Rec

/-- Dict lookup returning the first binding (Python dicts are unique-keyed). -/
def get : Record → String → Option Value
  | [], _ => none
  | (k', v) :: rest, k => if k' = k then some v else get rest k

/-- Python `key in dict`. -/
def contains (r : Record) (k : String) : Bool := (get r k).isSome

/-- Python `dict.get(key)`: `None` when the key is absent. -/
def pyGet (r : Record) (k : String) : Value := (get r k).getD Value.null

/-- Python `dict.get(key, default)`: the stored value (even if `None`)
when the key is present, otherwise the default. -/
def pyGetD (r : Record) (k : String) (d : Value) : Value := (get r k).getD d

/-- Python `dict[key] = v`: overwrite the first binding in place, or
append a new binding at the end. -/
def set : Record → String → Value → Record
  | [], k, v => [(k, v)]
  | (k', v') :: rest, k, v =>
    if k' = k then (k, v) :: rest else (k', v') :: set rest k v

/-- Python `dict.setdefault(key, v)`. -/
def setdefault (r : Record) (k : String) (v : Value) : Record :=
  if contains r k then r else set r k v

@[simp] theorem get_set_self (r : Record) (k : String) (v : Value) :
    get (set r k v) k = some v := by
  induction r with
  | nil => simp [set, get]
  | cons p rest ih =>
    by_cases h : p.1 = k
    · simp [set, get, h]
    · simp [set, get, h, ih]

theorem get_set_ne (r : Record) (k k' : String) (v : Value) (h : k' ≠ k) :
    get (set r k v) k' = get r k' := by
  have h2 : ¬(k = k') := fun hh => h hh.symm
  induction r with
  | nil => simp [set, get, h2]
  | cons p rest ih =>
    by_cases hp : p.1 = k
    · have hp' : ¬(p.1 = k') := by rw [hp]; exact h2
      simp [set, get, hp, hp', h2]
    · by_cases hp' : p.1 = k'
      · simp [set, get, hp, hp', h]
      · simp [set, get, hp, hp', ih]

theorem set_eq_of_get (r : Record) (k : String) (v : Value)
    (h : get r k = some v) : set r k v = r := by
  induction r with
  | nil => simp [get] at h
  | cons p rest ih =>
    by_cases hp : p.1 = k
    · simp [get, hp] at h
      cases p with
      | mk pk pv => simp_all [set]
    · simp [get, hp] at h
      simp [set, hp, ih h]

@[simp] theorem contains_set_self (r : Record) (k : String) (v : Value) :
    contains (set r k v) k = true := by
  simp [contains]

theorem contains_set_ne (r : Record) (k k' : String) (v : Value) (h : k' ≠ k) :
    contains (set r k v) k' = contains r k' := by
  simp [contains, get_set_ne r k k' v h]

theorem contains_set_mono (r : Record) (k k' : String) (v : Value)
    (h : contains r k' = true) : contains (set r k v) k' = true := by
  by_cases hk : k' = k
  · subst hk; simp
  · rwa [contains_set_ne r k k' v hk]

theorem get_setdefault_ne (r : Record) (k k' : String) (v : Value) (h : k' ≠ k) :
    get (setdefault r k v) k' = get r k' := by
  unfold setdefault
  split
  · rfl
  · exact get_set_ne r k k' v h

theorem contains_setdefault_ne (r : Record) (k k' : String) (v : Value) (h : k' ≠ k) :
    contains (setdefault r k v) k' = contains r k' := by
  simp [contains, get_setdefault_ne r k k' v h]

@[simp] theorem contains_setdefault_self (r : Record) (k : String) (v : Value) :
    contains (setdefault r k v) k = true := by
  unfold setdefault
  split
  · assumption
  · simp

theorem setdefault_of_contains (r : Record) (k : String) (v : Value)
    (h : contains r k = true) : setdefault r k v = r := by
  simp [setdefault, h]

theorem contains_setdefault_mono (r : Record) (k k' : String) (v : Value)
    (h : contains r k' = true) : contains (setdefault r k v) k' = true := by
  unfold setdefault
  split
  · exact h
  · exact contains_set_mono r k k' v h

theorem contains_ne_empty (r : Record) (k : String) (h : contains r k = true) :
    r ≠ [] := by
  intro he
  subst he
  simp [contains, get] at h

end Rec

/-!
Vendor mode constants.  `const.py` is not part of `src/`; only `climate.py`
and `daikinskyport.py` are.  The numeric codes below follow the spec.
-/

/-- Modelled from the spec: `const.py` is missing from the sources; spec
section 3 gives the Central vendor mode codes 0=off, 1=heat, 2=cool,
3=auto and a distinct aux-heat code, and the wall-unit dry code 5 (used
literally in `climate.py` line 506 next to `DAIKIN_HVAC_MODE_DRY`). -/
def DAIKIN_HVAC_MODE_OFF : ℤ := 0

/-- Central/wall-unit heat mode code (spec section 3). -/
def DAIKIN_HVAC_MODE_HEAT : ℤ := 1

/-- Central/wall-unit cool mode code (spec section 3). -/
def DAIKIN_HVAC_MODE_COOL : ℤ := 2

/-- Central/wall-unit auto mode code (spec section 3). -/
def DAIKIN_HVAC_MODE_AUTO : ℤ := 3

/-- Central aux-heat mode code, mapped to Heat in the entity table. -/
def DAIKIN_HVAC_MODE_AUXHEAT : ℤ := 4

/-- Dry mode code; `climate.py` compares `iduOperatingMode` to the
literal `5` for dry, matching the spec's wall-unit table. -/
def DAIKIN_HVAC_MODE_DRY : ℤ := 5

/-- Modelled from the spec: the fixed set of raw `iduOperatingMode`
codes recognized as fan-only operation.  `const.py` is missing from the
sources; the spec only requires a fixed set of recognized codes disjoint
from the heat/cool/auto/dry/off codes (its dry-mode scenario shows `5`
is not one of them).  The proofs below rely only on that disjointness,
not on the particular numerals. -/
def WALL_UNIT_FAN_MODE_VALUES : List ℤ := [65, 66]

/-- Modelled from the spec: the documented default fan-mode code used
when the unit is off or no specific fan-only code is present; it is one
of `WALL_UNIT_FAN_MODE_VALUES` and distinct from the mode codes 0-5. -/
def WALL_UNIT_FAN_MODE_DEFAULT : ℤ := 65

/-- Python `x in WALL_UNIT_FAN_MODE_VALUES` membership test (by `==`). -/
def valueMem (v : Value) (l : List ℤ) : Bool := l.any fun c => pyEq v (.int c)

/-!
Device-family classification.  Two places in the code classify a record:
`DaikinSkyport._is_wall_unit` (daikinskyport.py lines 97-99) and the
module-level `_is_wall_unit` (climate.py lines 155-160).
-/

/-- `DaikinSkyport._is_wall_unit` (daikinskyport.py lines 97-99):
`device_info.get("adptSupportedEquipment") == "RA" or "iduOperatingMode"
in device_info`. -/
def client_is_wall_unit (r : Record) : Bool :=
  pyEq (Rec.pyGet r "adptSupportedEquipment") (.str "RA") ||
    Rec.contains r "iduOperatingMode"

/-- `_is_wall_unit` (climate.py lines 155-160): additionally accepts
`device_type == "wall_unit"`. -/
def climate_is_wall_unit (r : Record) : Bool :=
  pyEq (Rec.pyGet r "device_type") (.str "wall_unit") ||
    pyEq (Rec.pyGet r "adptSupportedEquipment") (.str "RA") ||
    Rec.contains r "iduOperatingMode"

/-- The spec's classification heuristic, written from the spec's words
(section 3): WallUnit iff `device_type == "wall_unit"` or
`adptSupportedEquipment == "RA"` or the key `iduOperatingMode` exists.
Used to compare the two classifiers in the code against the spec. -/
def spec_wall_unit_heuristic (r : Record) : Bool :=
  pyEq (Rec.pyGet r "device_type") (.str "wall_unit") ||
    pyEq (Rec.pyGet r "adptSupportedEquipment") (.str "RA") ||
    Rec.contains r "iduOperatingMode"

/-!
Client-side wall-unit mode resolution (daikinskyport.py lines 101-123).
-/

/-- `DaikinSkyport._wall_unit_mode` (daikinskyport.py lines 101-113). -/
def wall_unit_mode (r : Record) : ℤ :=
  let opMode := Rec.pyGet r "iduOperatingMode"
  if Rec.pyGet r "iduOnOff" = .bool false ∨
      pyEq opMode (.int DAIKIN_HVAC_MODE_OFF) then
    DAIKIN_HVAC_MODE_OFF
  else if valueMem opMode WALL_UNIT_FAN_MODE_VALUES then
    WALL_UNIT_FAN_MODE_DEFAULT
  else if pyEq opMode (.int 1) then DAIKIN_HVAC_MODE_HEAT
  else if pyEq opMode (.int 2) then DAIKIN_HVAC_MODE_COOL
  else if pyEq opMode (.int 3) then DAIKIN_HVAC_MODE_AUTO
  else if pyEq opMode (.int 5) then DAIKIN_HVAC_MODE_DRY
  else DAIKIN_HVAC_MODE_OFF

/-- `DaikinSkyport._wall_unit_fan_speed_key` (daikinskyport.py
lines 115-123), keyed by the numeric daikin mode code. -/
def wall_unit_fan_speed_key (hvacMode : Value) : Option String :=
  if pyEq hvacMode (.int DAIKIN_HVAC_MODE_HEAT) then some "iduHeatFanSpeed"
  else if pyEq hvacMode (.int DAIKIN_HVAC_MODE_COOL) then some "iduCoolFanSpeed"
  else if pyEq hvacMode (.int DAIKIN_HVAC_MODE_AUTO) then some "iduAutoFanSpeed"
  else if pyEq hvacMode (.int DAIKIN_HVAC_MODE_DRY) then some "iduDryFanSpeed"
  else if pyEq hvacMode (.int WALL_UNIT_FAN_MODE_DEFAULT) then some "iduFanModeFanSpeed"
  else none

/-!
Home-assistant-facing enumerations (external collaborator interface).
-/

/-- The platform's HVAC mode enumeration, as used by `climate.py`. -/
inductive HVACMode where
  | off
  | heat
  | cool
  | auto
  | dry
  | fanOnly
deriving DecidableEq, Repr

/-- `DAIKIN_HVAC_TO_HASS` (climate.py lines 105-114): ordered pairs of
vendor mode code and platform mode; key 4 (aux heat) maps to heat. -/
def DAIKIN_HVAC_TO_HASS : List (ℤ × HVACMode) :=
  [(DAIKIN_HVAC_MODE_HEAT, .heat),
   (DAIKIN_HVAC_MODE_COOL, .cool),
   (DAIKIN_HVAC_MODE_AUTO, .auto),
   (DAIKIN_HVAC_MODE_DRY, .dry),
   (DAIKIN_HVAC_MODE_OFF, .off),
   (DAIKIN_HVAC_MODE_AUXHEAT, .heat)]

/-- `DAIKIN_HVAC_TO_HASS.get(v)` with a dynamically typed key, using
Python `==` on the integer keys. -/
def daikinHvacToHass (v : Value) : Option HVACMode :=
  (DAIKIN_HVAC_TO_HASS.find? fun p => pyEq v (.int p.1)).map (·.2)

/-- `Thermostat._wall_unit_hvac_mode` (climate.py lines 517-525). -/
def wall_unit_hvac_mode (r : Record) : HVACMode :=
  let daikinMode :=
    if Rec.pyGet r "mode" = Value.null then Rec.pyGet r "iduOperatingMode"
    else Rec.pyGet r "mode"
  if Rec.pyGet r "iduOnOff" = .bool false then .off
  else if valueMem daikinMode WALL_UNIT_FAN_MODE_VALUES then .fanOnly
  else (daikinHvacToHass daikinMode).getD .off

/-- C2: for every WallUnit device record with `iduOnOff` equal to the
boolean `false`, both mode resolvers — the client's
`DaikinSkyport._wall_unit_mode` and the entity's
`Thermostat._wall_unit_hvac_mode` — resolve the current operating mode
to Off, regardless of the value or presence of `iduOperatingMode` or
`mode`. -/
theorem wall_unit_off_override (r : Record)
    (h : Rec.pyGet r "iduOnOff" = Value.bool false) :
    wall_unit_mode r = DAIKIN_HVAC_MODE_OFF ∧
      wall_unit_hvac_mode r = HVACMode.off := by
  constructor
  · unfold wall_unit_mode
    rw [if_pos (Or.inl h)]
  · unfold wall_unit_hvac_mode
    rw [if_pos h]

/-- Witness for C2: a record that is on paper in cooling mode
(`iduOperatingMode = 2`, `mode = 2`) but has `iduOnOff = false`
resolves to Off in both resolvers. -/
theorem wall_unit_off_override_witness :
    Rec.pyGet [("iduOnOff", Value.bool false),
               ("iduOperatingMode", Value.int 2),
               ("mode", Value.int 2)] "iduOnOff" = Value.bool false ∧
      wall_unit_mode [("iduOnOff", Value.bool false),
                      ("iduOperatingMode", Value.int 2),
                      ("mode", Value.int 2)] = DAIKIN_HVAC_MODE_OFF ∧
      wall_unit_hvac_mode [("iduOnOff", Value.bool false),
                           ("iduOperatingMode", Value.int 2),
                           ("mode", Value.int 2)] = HVACMode.off := by
  refine ⟨by decide, ?_⟩
  have h := wall_unit_off_override
    [("iduOnOff", Value.bool false), ("iduOperatingMode", Value.int 2),
     ("mode", Value.int 2)] (by decide)
  exact h

/-- C6 counterexample: the claim says every classification site treats a
record with `device_type == "wall_unit"` as WallUnit, but the client-side
classifier `DaikinSkyport._is_wall_unit` ignores `device_type`: on a
record whose only wall-unit marker is `device_type = "wall_unit"` it
returns false (Central) while the entity-side classifier returns true. -/
theorem is_wall_unit_disagreement :
    client_is_wall_unit [("device_type", Value.str "wall_unit")] = false ∧
      climate_is_wall_unit [("device_type", Value.str "wall_unit")] = true := by
  decide

/-- C6 amended: the entity-layer classifier (climate.py `_is_wall_unit`)
implements exactly the spec's three-condition heuristic, while the
client-layer classifier (`DaikinSkyport._is_wall_unit`) checks only the
last two conditions (`adptSupportedEquipment == "RA"` or presence of
`iduOperatingMode`); consequently everything the client classifies as
WallUnit the entity layer does too, but not conversely. -/
theorem is_wall_unit_characterization (r : Record) :
    climate_is_wall_unit r = spec_wall_unit_heuristic r ∧
      client_is_wall_unit r =
        (pyEq (Rec.pyGet r "adptSupportedEquipment") (.str "RA") ||
          Rec.contains r "iduOperatingMode") ∧
      (client_is_wall_unit r = true → climate_is_wall_unit r = true) := by
  refine ⟨rfl, rfl, fun h => ?_⟩
  unfold climate_is_wall_unit
  unfold client_is_wall_unit at h
  rcases Bool.or_eq_true_iff.mp h with h1 | h1 <;> simp [h1]

/-- Witness for C6 amended: a record carrying the RA marker is classified
WallUnit by both classifiers. -/
theorem is_wall_unit_characterization_witness :
    client_is_wall_unit [("adptSupportedEquipment", Value.str "RA")] = true ∧
      climate_is_wall_unit [("adptSupportedEquipment", Value.str "RA")] = true := by
  refine ⟨by decide, ?_⟩
  exact (is_wall_unit_characterization
    [("adptSupportedEquipment", Value.str "RA")]).2.2 (by decide)

/-!
Central capability discovery, from `Thermostat._configure_capabilities`
(climate.py lines 465-483, non-wall-unit branch).
-/

/-- Python `value > 0` on a record field, numeric comparison. -/
def valuePos (v : Value) : Bool :=
  match v.toNum with
  | some q => 0 < q
  | none => false

/-- The heat condition of climate.py line 469:
`self.thermostat.get("ctSystemCapHeat")` is truthy. -/
def central_heat_condition (r : Record) : Bool :=
  truthy (Rec.pyGet r "ctSystemCapHeat")

/-- The cool condition of climate.py lines 471-472: the outdoor cool
stage count is present and positive, or the protocol capability flag is
present and is the boolean True. -/
def central_cool_condition (r : Record) : Bool :=
  (Rec.contains r "ctOutdoorNoofCoolStages" &&
      valuePos (Rec.pyGet r "ctOutdoorNoofCoolStages")) ||
    (Rec.contains r "P1P2S21CoolingCapability" &&
      (Rec.pyGet r "P1P2S21CoolingCapability" = Value.bool true))

/-- The operation list built by `_configure_capabilities` for Central
devices (climate.py lines 468-476): heat appended when capable, cool
appended when capable, auto inserted at the front exactly when the list
has two entries, off always appended last. -/
def central_operation_list (r : Record) : List HVACMode :=
  let l : List HVACMode := []
  let l := if central_heat_condition r then l ++ [.heat] else l
  let l := if central_cool_condition r then l ++ [.cool] else l
  let l := if l.length = 2 then .auto :: l else l
  l ++ [.off]

/-- C5: in the Central supported-mode list, Auto appears iff both Heat
and Cool appear (Heat iff the heating-capacity flag is truthy, Cool iff
the outdoor cool-stage count is positive or the protocol cooling flag is
True); Auto, when present, is first, and Off is always last. -/
theorem central_auto_iff_heat_and_cool (r : Record) :
    (HVACMode.heat ∈ central_operation_list r ↔
        central_heat_condition r = true) ∧
      (HVACMode.cool ∈ central_operation_list r ↔
        central_cool_condition r = true) ∧
      (HVACMode.auto ∈ central_operation_list r ↔
        (HVACMode.heat ∈ central_operation_list r ∧
          HVACMode.cool ∈ central_operation_list r)) ∧
      (HVACMode.auto ∈ central_operation_list r →
        (central_operation_list r).head? = some HVACMode.auto) ∧
      (central_operation_list r).getLast? = some HVACMode.off := by
  by_cases hh : central_heat_condition r <;>
    by_cases hc : central_cool_condition r <;>
      simp [central_operation_list, hh, hc]

/-- Witness for C5: a record with both a truthy heating-capacity flag and
a positive cool-stage count yields the list Auto, Heat, Cool, Off. -/
theorem central_auto_iff_heat_and_cool_witness :
    HVACMode.auto ∈ central_operation_list
        [("ctSystemCapHeat", Value.bool true),
         ("ctOutdoorNoofCoolStages", Value.int 1)] ∧
      (central_operation_list
        [("ctSystemCapHeat", Value.bool true),
         ("ctOutdoorNoofCoolStages", Value.int 1)]).head? =
        some HVACMode.auto := by
  have h := central_auto_iff_heat_and_cool
    [("ctSystemCapHeat", Value.bool true),
     ("ctOutdoorNoofCoolStages", Value.int 1)]
  have hauto : HVACMode.auto ∈ central_operation_list
      [("ctSystemCapHeat", Value.bool true),
       ("ctOutdoorNoofCoolStages", Value.int 1)] :=
    h.2.2.1.mpr ⟨h.1.mpr (by decide), h.2.1.mpr (by decide)⟩
  exact ⟨hauto, h.2.2.2.1 hauto⟩

/-!
The Device Normalizer: `DaikinSkyport._normalize_device_info`
(daikinskyport.py lines 125-157).  The wall-unit branch is split into
named steps so each line of the source maps to one definition.
-/

/-- Python `if "dst" not in d and "src" in d: d["dst"] = d["src"]`, the
backfill pattern of daikinskyport.py lines 137-146. -/
def Rec.backfill (r : Record) (dst src : String) : Record :=
  if ¬ Rec.contains r dst ∧ Rec.contains r src then
    Rec.set r dst (Rec.pyGet r src)
  else r

theorem Rec.get_backfill_ne (r : Record) (dst src k : String)
    (h : k ≠ dst) : Rec.get (Rec.backfill r dst src) k = Rec.get r k := by
  unfold Rec.backfill
  split
  · exact Rec.get_set_ne r dst k _ h
  · rfl

theorem Rec.contains_backfill_ne (r : Record) (dst src k : String)
    (h : k ≠ dst) :
    Rec.contains (Rec.backfill r dst src) k = Rec.contains r k := by
  simp [Rec.contains, Rec.get_backfill_ne r dst src k h]

theorem Rec.backfill_id (r : Record) (dst src : String)
    (h : Rec.contains r dst = true ∨ Rec.contains r src = false) :
    Rec.backfill r dst src = r := by
  unfold Rec.backfill
  rcases h with h | h <;> simp [h]

theorem Rec.backfill_post (r : Record) (dst src : String) :
    Rec.contains (Rec.backfill r dst src) dst = true ∨
      Rec.contains (Rec.backfill r dst src) src = false := by
  unfold Rec.backfill
  split
  · left; simp
  · next h =>
    rcases Decidable.not_and_iff_or_not.mp h with h1 | h1
    · left; simpa using h1
    · right; simpa using h1

theorem Rec.contains_backfill_mono (r : Record) (dst src k : String)
    (h : Rec.contains r k = true) :
    Rec.contains (Rec.backfill r dst src) k = true := by
  unfold Rec.backfill
  split
  · exact Rec.contains_set_mono r dst k _ h
  · exact h

/-- Lines 130-131: set `mode` from `_wall_unit_mode` when absent. -/
def modeStep (r : Record) : Record :=
  if Rec.contains r "mode" then r
  else Rec.set r "mode" (.int (wall_unit_mode r))

theorem get_modeStep_ne (r : Record) (k : String) (h : k ≠ "mode") :
    Rec.get (modeStep r) k = Rec.get r k := by
  unfold modeStep
  split
  · rfl
  · exact Rec.get_set_ne r "mode" k _ h

theorem contains_modeStep_ne (r : Record) (k : String) (h : k ≠ "mode") :
    Rec.contains (modeStep r) k = Rec.contains r k := by
  simp [Rec.contains, get_modeStep_ne r k h]

theorem contains_modeStep_self (r : Record) :
    Rec.contains (modeStep r) "mode" = true := by
  unfold modeStep
  split
  · next h => exact h
  · simp

theorem modeStep_id (r : Record) (h : Rec.contains r "mode" = true) :
    modeStep r = r := by
  simp [modeStep, h]

/-- The guard of line 133: `device_info.get("iduOnOff") is True and
op_mode in WALL_UNIT_FAN_MODE_VALUES`. -/
def fanModeCond (r : Record) : Bool :=
  (Rec.pyGet r "iduOnOff" = Value.bool true) &&
    valueMem (Rec.pyGet r "iduOperatingMode") WALL_UNIT_FAN_MODE_VALUES

/-- Lines 132-136: record the matched fan-only raw code in
`wallUnitFanModeValue`, defaulting when off or unrecognized. -/
def fanModeStep (r : Record) : Record :=
  if fanModeCond r then
    Rec.set r "wallUnitFanModeValue" (Rec.pyGet r "iduOperatingMode")
  else
    Rec.setdefault r "wallUnitFanModeValue" (.int WALL_UNIT_FAN_MODE_DEFAULT)

theorem get_fanModeStep_ne (r : Record) (k : String)
    (h : k ≠ "wallUnitFanModeValue") :
    Rec.get (fanModeStep r) k = Rec.get r k := by
  unfold fanModeStep
  split
  · exact Rec.get_set_ne r "wallUnitFanModeValue" k _ h
  · exact Rec.get_setdefault_ne r "wallUnitFanModeValue" k _ h

theorem contains_fanModeStep_ne (r : Record) (k : String)
    (h : k ≠ "wallUnitFanModeValue") :
    Rec.contains (fanModeStep r) k = Rec.contains r k := by
  simp [Rec.contains, get_fanModeStep_ne r k h]

theorem contains_fanModeStep_self (r : Record) :
    Rec.contains (fanModeStep r) "wallUnitFanModeValue" = true := by
  unfold fanModeStep
  split
  · simp
  · simp

theorem get_fanModeStep_self_of_cond (r : Record) (h : fanModeCond r = true) :
    Rec.get (fanModeStep r) "wallUnitFanModeValue" =
      some (Rec.pyGet r "iduOperatingMode") := by
  simp [fanModeStep, h]

theorem fanModeStep_id (r : Record)
    (h1 : fanModeCond r = true →
      Rec.get r "wallUnitFanModeValue" = some (Rec.pyGet r "iduOperatingMode"))
    (h2 : Rec.contains r "wallUnitFanModeValue" = true) :
    fanModeStep r = r := by
  unfold fanModeStep
  split
  · next hc => exact Rec.set_eq_of_get r _ _ (h1 hc)
  · exact Rec.setdefault_of_contains r _ _ h2

/-- Lines 147-155: the fixed canonical flags defaulted when absent. -/
def defaultsList : List (String × Value) :=
  [("geofencingAway", .bool false),
   ("schedOverride", .int 0),
   ("schedEnabled", .bool false),
   ("fanCirculate", .int 0),
   ("fanCirculateSpeed", .int 0),
   ("nightModeActive", .bool false),
   ("nightModeEnabled", .bool false),
   ("displayLockPIN", .int 0),
   ("alertMediaAirFilterDays", .int 0)]

/-- Apply the chain of `setdefault` calls of lines 147-155. -/
def applyDefaults (r : Record) : Record :=
  defaultsList.foldl (fun acc kv => Rec.setdefault acc kv.1 kv.2) r

theorem foldl_setdefault_get_ne (l : List (String × Value)) (r : Record)
    (k : String) (h : ∀ kv ∈ l, k ≠ kv.1) :
    Rec.get (l.foldl (fun acc kv => Rec.setdefault acc kv.1 kv.2) r) k =
      Rec.get r k := by
  induction l generalizing r with
  | nil => rfl
  | cons kv rest ih =>
    simp only [List.foldl_cons]
    rw [ih _ fun p hp => h p (List.mem_cons_of_mem kv hp)]
    exact Rec.get_setdefault_ne r kv.1 k kv.2 (h kv (List.mem_cons_self kv rest))

theorem foldl_setdefault_contains_mono (l : List (String × Value))
    (r : Record) (k : String) (h : Rec.contains r k = true) :
    Rec.contains (l.foldl (fun acc kv => Rec.setdefault acc kv.1 kv.2) r) k =
      true := by
  induction l generalizing r with
  | nil => exact h
  | cons kv rest ih =>
    simp only [List.foldl_cons]
    exact ih _ (Rec.contains_setdefault_mono r kv.1 k kv.2 h)

theorem foldl_setdefault_contains_mem (l : List (String × Value))
    (r : Record) (k : String) (h : k ∈ l.map Prod.fst) :
    Rec.contains (l.foldl (fun acc kv => Rec.setdefault acc kv.1 kv.2) r) k =
      true := by
  induction l generalizing r with
  | nil => simp at h
  | cons kv rest ih =>
    simp only [List.foldl_cons]
    rcases List.mem_cons.mp h with h1 | h1
    · subst h1
      exact foldl_setdefault_contains_mono rest _ _ (by simp)
    · exact ih _ h1

theorem foldl_setdefault_id (l : List (String × Value)) (r : Record)
    (h : ∀ kv ∈ l, Rec.contains r kv.1 = true) :
    l.foldl (fun acc kv => Rec.setdefault acc kv.1 kv.2) r = r := by
  induction l with
  | nil => rfl
  | cons kv rest ih =>
    simp only [List.foldl_cons]
    rw [Rec.setdefault_of_contains r kv.1 kv.2 (h kv (List.mem_cons_self kv rest))]
    exact ih fun p hp => h p (List.mem_cons_of_mem kv hp)

/-- The wall-unit branch of `_normalize_device_info` (lines 128-156). -/
def wallNormalize (d : Record) : Record :=
  let d1 := Rec.set d "device_type" (.str "wall_unit")
  let d2 := modeStep d1
  let d3 := fanModeStep d2
  let d4 := Rec.backfill d3 "tempIndoor" "iduRoomTemp"
  let d5 := Rec.backfill d4 "cspActive" "iduCoolSetpoint"
  let d6 := Rec.backfill d5 "hspActive" "iduHeatSetpoint"
  let d7 := Rec.backfill d6 "cspHome" "cspActive"
  let d8 := Rec.backfill d7 "hspHome" "hspActive"
  let d9 := applyDefaults d8
  Rec.setdefault d9 "statFirmware" (Rec.pyGet d9 "adptSWversion")

/-- `DaikinSkyport._normalize_device_info` (lines 125-157): empty
records pass through; wall units are normalized; Central records are
structurally unchanged. -/
def normalize_device_info (d : Record) : Record :=
  if d = [] then d
  else if client_is_wall_unit d then wallNormalize d
  else d

/-!
Idempotence of the Normalizer (claim C3).  The facts below track, for a
normalized record, which keys the wall-unit pass reads and writes.
-/

theorem wallNormalize_get_untouched (d : Record) (k : String)
    (h1 : k ≠ "device_type") (h2 : k ≠ "mode")
    (h3 : k ≠ "wallUnitFanModeValue") (h4 : k ≠ "tempIndoor")
    (h5 : k ≠ "cspActive") (h6 : k ≠ "hspActive") (h7 : k ≠ "cspHome")
    (h8 : k ≠ "hspHome") (h9 : ∀ kv ∈ defaultsList, k ≠ kv.1)
    (h10 : k ≠ "statFirmware") :
    Rec.get (wallNormalize d) k = Rec.get d k := by
  simp only [wallNormalize, applyDefaults]
  rw [Rec.get_setdefault_ne _ _ _ _ h10,
      foldl_setdefault_get_ne _ _ _ h9,
      Rec.get_backfill_ne _ _ _ _ h8,
      Rec.get_backfill_ne _ _ _ _ h7,
      Rec.get_backfill_ne _ _ _ _ h6,
      Rec.get_backfill_ne _ _ _ _ h5,
      Rec.get_backfill_ne _ _ _ _ h4,
      get_fanModeStep_ne _ _ h3,
      get_modeStep_ne _ _ h2,
      Rec.get_set_ne _ _ _ _ h1]

theorem wallNormalize_get_device_type (d : Record) :
    Rec.get (wallNormalize d) "device_type" = some (.str "wall_unit") := by
  simp only [wallNormalize, applyDefaults]
  rw [Rec.get_setdefault_ne _ _ _ _ (by decide),
      foldl_setdefault_get_ne _ _ _ (by decide),
      Rec.get_backfill_ne _ _ _ _ (by decide),
      Rec.get_backfill_ne _ _ _ _ (by decide),
      Rec.get_backfill_ne _ _ _ _ (by decide),
      Rec.get_backfill_ne _ _ _ _ (by decide),
      Rec.get_backfill_ne _ _ _ _ (by decide),
      get_fanModeStep_ne _ _ (by decide),
      get_modeStep_ne _ _ (by decide),
      Rec.get_set_self]

theorem wallNormalize_contains_mode (d : Record) :
    Rec.contains (wallNormalize d) "mode" = true := by
  simp only [wallNormalize, applyDefaults, Rec.contains]
  rw [Rec.get_setdefault_ne _ _ _ _ (by decide),
      foldl_setdefault_get_ne _ _ _ (by decide),
      Rec.get_backfill_ne _ _ _ _ (by decide),
      Rec.get_backfill_ne _ _ _ _ (by decide),
      Rec.get_backfill_ne _ _ _ _ (by decide),
      Rec.get_backfill_ne _ _ _ _ (by decide),
      Rec.get_backfill_ne _ _ _ _ (by decide),
      get_fanModeStep_ne _ _ (by decide)]
  exact contains_modeStep_self _

theorem wallNormalize_contains_fanModeValue (d : Record) :
    Rec.contains (wallNormalize d) "wallUnitFanModeValue" = true := by
  simp only [wallNormalize, applyDefaults, Rec.contains]
  rw [Rec.get_setdefault_ne _ _ _ _ (by decide),
      foldl_setdefault_get_ne _ _ _ (by decide),
      Rec.get_backfill_ne _ _ _ _ (by decide),
      Rec.get_backfill_ne _ _ _ _ (by decide),
      Rec.get_backfill_ne _ _ _ _ (by decide),
      Rec.get_backfill_ne _ _ _ _ (by decide),
      Rec.get_backfill_ne _ _ _ _ (by decide)]
  exact contains_fanModeStep_self _

/-- The fan-mode guard only reads keys the normalizer never writes. -/
theorem fanModeCond_wallNormalize (d : Record) :
    fanModeCond (wallNormalize d) = fanModeCond d := by
  unfold fanModeCond Rec.pyGet
  rw [wallNormalize_get_untouched d "iduOnOff" (by decide) (by decide)
        (by decide) (by decide) (by decide) (by decide) (by decide)
        (by decide) (by decide) (by decide),
      wallNormalize_get_untouched d "iduOperatingMode" (by decide) (by decide)
        (by decide) (by decide) (by decide) (by decide) (by decide)
        (by decide) (by decide) (by decide)]

theorem wallNormalize_get_fanModeValue_of_cond (d : Record)
    (h : fanModeCond d = true) :
    Rec.get (wallNormalize d) "wallUnitFanModeValue" =
      some (Rec.pyGet d "iduOperatingMode") := by
  simp only [wallNormalize, applyDefaults]
  rw [Rec.get_setdefault_ne _ _ _ _ (by decide),
      foldl_setdefault_get_ne _ _ _ (by decide),
      Rec.get_backfill_ne _ _ _ _ (by decide),
      Rec.get_backfill_ne _ _ _ _ (by decide),
      Rec.get_backfill_ne _ _ _ _ (by decide),
      Rec.get_backfill_ne _ _ _ _ (by decide),
      Rec.get_backfill_ne _ _ _ _ (by decide)]
  have hd2 : fanModeCond (modeStep (Rec.set d "device_type" (.str "wall_unit"))) =
      fanModeCond d := by
    unfold fanModeCond Rec.pyGet
    rw [get_modeStep_ne _ _ (by decide), get_modeStep_ne _ _ (by decide),
        Rec.get_set_ne _ _ _ _ (by decide), Rec.get_set_ne _ _ _ _ (by decide)]
  rw [get_fanModeStep_self_of_cond _ (by rw [hd2]; exact h)]
  unfold Rec.pyGet
  rw [get_modeStep_ne _ _ (by decide), Rec.get_set_ne _ _ _ _ (by decide)]

theorem foldl_setdefault_contains_ne (l : List (String × Value)) (r : Record)
    (k : String) (h : ∀ kv ∈ l, k ≠ kv.1) :
    Rec.contains (l.foldl (fun acc kv => Rec.setdefault acc kv.1 kv.2) r) k =
      Rec.contains r k := by
  simp [Rec.contains, foldl_setdefault_get_ne l r k h]

theorem wallNormalize_post_tempIndoor (d : Record) :
    Rec.contains (wallNormalize d) "tempIndoor" = true ∨
      Rec.contains (wallNormalize d) "iduRoomTemp" = false := by
  simp only [wallNormalize, applyDefaults]
  rw [Rec.contains_setdefault_ne _ _ "tempIndoor" _ (by decide),
      foldl_setdefault_contains_ne _ _ "tempIndoor" (by decide),
      Rec.contains_backfill_ne _ "hspHome" _ "tempIndoor" (by decide),
      Rec.contains_backfill_ne _ "cspHome" _ "tempIndoor" (by decide),
      Rec.contains_backfill_ne _ "hspActive" _ "tempIndoor" (by decide),
      Rec.contains_backfill_ne _ "cspActive" _ "tempIndoor" (by decide),
      Rec.contains_setdefault_ne _ _ "iduRoomTemp" _ (by decide),
      foldl_setdefault_contains_ne _ _ "iduRoomTemp" (by decide),
      Rec.contains_backfill_ne _ "hspHome" _ "iduRoomTemp" (by decide),
      Rec.contains_backfill_ne _ "cspHome" _ "iduRoomTemp" (by decide),
      Rec.contains_backfill_ne _ "hspActive" _ "iduRoomTemp" (by decide),
      Rec.contains_backfill_ne _ "cspActive" _ "iduRoomTemp" (by decide)]
  exact Rec.backfill_post _ _ _

theorem wallNormalize_post_cspActive (d : Record) :
    Rec.contains (wallNormalize d) "cspActive" = true ∨
      Rec.contains (wallNormalize d) "iduCoolSetpoint" = false := by
  simp only [wallNormalize, applyDefaults]
  rw [Rec.contains_setdefault_ne _ _ "cspActive" _ (by decide),
      foldl_setdefault_contains_ne _ _ "cspActive" (by decide),
      Rec.contains_backfill_ne _ "hspHome" _ "cspActive" (by decide),
      Rec.contains_backfill_ne _ "cspHome" _ "cspActive" (by decide),
      Rec.contains_backfill_ne _ "hspActive" _ "cspActive" (by decide),
      Rec.contains_setdefault_ne _ _ "iduCoolSetpoint" _ (by decide),
      foldl_setdefault_contains_ne _ _ "iduCoolSetpoint" (by decide),
      Rec.contains_backfill_ne _ "hspHome" _ "iduCoolSetpoint" (by decide),
      Rec.contains_backfill_ne _ "cspHome" _ "iduCoolSetpoint" (by decide),
      Rec.contains_backfill_ne _ "hspActive" _ "iduCoolSetpoint" (by decide)]
  exact Rec.backfill_post _ _ _

theorem wallNormalize_post_hspActive (d : Record) :
    Rec.contains (wallNormalize d) "hspActive" = true ∨
      Rec.contains (wallNormalize d) "iduHeatSetpoint" = false := by
  simp only [wallNormalize, applyDefaults]
  rw [Rec.contains_setdefault_ne _ _ "hspActive" _ (by decide),
      foldl_setdefault_contains_ne _ _ "hspActive" (by decide),
      Rec.contains_backfill_ne _ "hspHome" _ "hspActive" (by decide),
      Rec.contains_backfill_ne _ "cspHome" _ "hspActive" (by decide),
      Rec.contains_setdefault_ne _ _ "iduHeatSetpoint" _ (by decide),
      foldl_setdefault_contains_ne _ _ "iduHeatSetpoint" (by decide),
      Rec.contains_backfill_ne _ "hspHome" _ "iduHeatSetpoint" (by decide),
      Rec.contains_backfill_ne _ "cspHome" _ "iduHeatSetpoint" (by decide)]
  exact Rec.backfill_post _ _ _

theorem wallNormalize_post_cspHome (d : Record) :
    Rec.contains (wallNormalize d) "cspHome" = true ∨
      Rec.contains (wallNormalize d) "cspActive" = false := by
  simp only [wallNormalize, applyDefaults]
  rw [Rec.contains_setdefault_ne _ _ "cspHome" _ (by decide),
      foldl_setdefault_contains_ne _ _ "cspHome" (by decide),
      Rec.contains_backfill_ne _ "hspHome" _ "cspHome" (by decide),
      Rec.contains_setdefault_ne _ _ "cspActive" _ (by decide),
      foldl_setdefault_contains_ne _ _ "cspActive" (by decide),
      Rec.contains_backfill_ne _ "hspHome" _ "cspActive" (by decide)]
  exact Rec.backfill_post _ _ _

theorem wallNormalize_post_hspHome (d : Record) :
    Rec.contains (wallNormalize d) "hspHome" = true ∨
      Rec.contains (wallNormalize d) "hspActive" = false := by
  simp only [wallNormalize, applyDefaults]
  rw [Rec.contains_setdefault_ne _ _ "hspHome" _ (by decide),
      foldl_setdefault_contains_ne _ _ "hspHome" (by decide),
      Rec.contains_setdefault_ne _ _ "hspActive" _ (by decide),
      foldl_setdefault_contains_ne _ _ "hspActive" (by decide)]
  exact Rec.backfill_post _ _ _

theorem wallNormalize_contains_defaults (d : Record) :
    ∀ kv ∈ defaultsList, Rec.contains (wallNormalize d) kv.1 = true := by
  intro kv hkv
  simp only [wallNormalize, applyDefaults]
  apply Rec.contains_setdefault_mono
  exact foldl_setdefault_contains_mem _ _ _ (List.mem_map_of_mem Prod.fst hkv)

theorem wallNormalize_contains_statFirmware (d : Record) :
    Rec.contains (wallNormalize d) "statFirmware" = true := by
  simp only [wallNormalize, applyDefaults]
  exact Rec.contains_setdefault_self _ _ _

/-- A second normalization pass over an already-normalized wall-unit
record is the identity: every step either sees its key already present
or rewrites the same value. -/
theorem wallNormalize_idem (d : Record) :
    wallNormalize (wallNormalize d) = wallNormalize d := by
  set D := wallNormalize d with hD
  have s1 : Rec.set D "device_type" (.str "wall_unit") = D :=
    Rec.set_eq_of_get _ _ _ (wallNormalize_get_device_type d)
  have s2 : modeStep D = D := modeStep_id _ (wallNormalize_contains_mode d)
  have s3 : fanModeStep D = D := by
    refine fanModeStep_id _ (fun hc => ?_) (wallNormalize_contains_fanModeValue d)
    have hcd : fanModeCond d = true := by
      rw [← fanModeCond_wallNormalize d]; exact hc
    rw [hD, wallNormalize_get_fanModeValue_of_cond d hcd]
    have : Rec.pyGet (wallNormalize d) "iduOperatingMode" =
        Rec.pyGet d "iduOperatingMode" := by
      unfold Rec.pyGet
      rw [wallNormalize_get_untouched d "iduOperatingMode" (by decide)
            (by decide) (by decide) (by decide) (by decide) (by decide)
            (by decide) (by decide) (by decide) (by decide)]
    rw [this]
  have s4 : Rec.backfill D "tempIndoor" "iduRoomTemp" = D :=
    Rec.backfill_id _ _ _ (wallNormalize_post_tempIndoor d)
  have s5 : Rec.backfill D "cspActive" "iduCoolSetpoint" = D :=
    Rec.backfill_id _ _ _ (wallNormalize_post_cspActive d)
  have s6 : Rec.backfill D "hspActive" "iduHeatSetpoint" = D :=
    Rec.backfill_id _ _ _ (wallNormalize_post_hspActive d)
  have s7 : Rec.backfill D "cspHome" "cspActive" = D :=
    Rec.backfill_id _ _ _ (wallNormalize_post_cspHome d)
  have s8 : Rec.backfill D "hspHome" "hspActive" = D :=
    Rec.backfill_id _ _ _ (wallNormalize_post_hspHome d)
  have s9 : applyDefaults D = D :=
    foldl_setdefault_id _ _ (wallNormalize_contains_defaults d)
  have s10 : ∀ v, Rec.setdefault D "statFirmware" v = D := fun v =>
    Rec.setdefault_of_contains _ _ _ (wallNormalize_contains_statFirmware d)
  show wallNormalize D = D
  simp only [wallNormalize]
  rw [s1, s2, s3, s4, s5, s6, s7, s8, s9, s10]

/-- Classification is stable under normalization: the wall-unit pass
never writes the keys the classifier reads. -/
theorem client_is_wall_unit_wallNormalize (d : Record) :
    client_is_wall_unit (wallNormalize d) = client_is_wall_unit d := by
  unfold client_is_wall_unit Rec.pyGet Rec.contains
  rw [wallNormalize_get_untouched d "adptSupportedEquipment" (by decide)
        (by decide) (by decide) (by decide) (by decide) (by decide)
        (by decide) (by decide) (by decide) (by decide),
      wallNormalize_get_untouched d "iduOperatingMode" (by decide) (by decide)
        (by decide) (by decide) (by decide) (by decide) (by decide)
        (by decide) (by decide) (by decide)]

/-- C3: the Normalizer is idempotent — applying
`_normalize_device_info` twice equals applying it once, for every
device record. -/
theorem normalize_device_info_idem (d : Record) :
    normalize_device_info (normalize_device_info d) =
      normalize_device_info d := by
  by_cases h0 : d = []
  · subst h0
    simp [normalize_device_info]
  · by_cases hw : client_is_wall_unit d
    · have h1 : normalize_device_info d = wallNormalize d := by
        simp [normalize_device_info, h0, hw]
      have hne : wallNormalize d ≠ [] :=
        Rec.contains_ne_empty _ "device_type"
          (by simp [Rec.contains, wallNormalize_get_device_type d])
      have hw2 : client_is_wall_unit (wallNormalize d) = true := by
        rw [client_is_wall_unit_wallNormalize d]; exact hw
      rw [h1]
      simp [normalize_device_info, hne, hw2, wallNormalize_idem d]
    · have h1 : normalize_device_info d = d := by
        simp [normalize_device_info, h0, hw]
      rw [h1, h1]

/-!
The entity-layer resolver for wall units: supported features, fan
tables and `Thermostat._apply_thermostat_state` (climate.py
lines 414-612, wall-unit branch).
-/

/-- The platform's climate feature bitmask, as a record of flags. -/
structure Features where
  targetTemperature : Bool
  targetTemperatureRange : Bool
  fanMode : Bool
  presetMode : Bool
  turnOn : Bool
  turnOff : Bool
deriving DecidableEq, Repr

/-- `SUPPORT_FLAGS` (climate.py lines 229-236): all six features. -/
def SUPPORT_FLAGS : Features :=
  ⟨true, true, true, true, true, true⟩

/-- The wall-unit base feature set of `_configure_capabilities`
(climate.py lines 449-453): target temperature, fan mode, preset mode. -/
def wallUnitBaseFeatures : Features :=
  ⟨true, false, true, true, false, false⟩

/-- `WALL_UNIT_FAN_SPEED_TO_HASS` (climate.py lines 238-246). -/
def WALL_UNIT_FAN_SPEED_TO_HASS : List (ℤ × String) :=
  [(10, "auto"), (11, "quiet"), (3, "low"), (4, "medium_low"),
   (5, "medium"), (6, "medium_high"), (7, "high")]

/-- `WALL_UNIT_FAN_SPEED_ORDER` (climate.py line 247). -/
def WALL_UNIT_FAN_SPEED_ORDER : List ℤ := [10, 11, 3, 4, 5, 6, 7]

/-- Python `str(value)`, used only to surface opaque fan-speed labels;
the exact float rendering is irrelevant to the claims. -/
def pyStr : Value → String
  | .int n => toString n
  | .rat q => toString q
  | .bool b => if b then "True" else "False"
  | .str s => s
  | .null => "None"

/-- `WALL_UNIT_FAN_SPEED_TO_HASS.get(fan_speed, str(fan_speed))`. -/
def wallUnitFanLabel (v : Value) : String :=
  match WALL_UNIT_FAN_SPEED_TO_HASS.find? (fun p => pyEq v (.int p.1)) with
  | some p => p.2
  | none => pyStr v

/-- `WALL_UNIT_FAN_SPEED_TO_HASS[code]` for a known integer code. -/
def wallUnitFanLabelOfCode (c : ℤ) : String :=
  match WALL_UNIT_FAN_SPEED_TO_HASS.find? (fun p => p.1 = c) with
  | some p => p.2
  | none => toString c

/-- Python `x or y` on values. -/
def pyOr (a b : Value) : Value := if truthy a then a else b

/-- Python `int(q)`: truncation toward zero. -/
def intTrunc (q : ℚ) : ℤ := if 0 ≤ q then ⌊q⌋ else -⌊-q⌋

/-- `Thermostat._wall_unit_operating_mode` (climate.py lines 527-539). -/
def wall_unit_operating_mode (r : Record) : Option HVACMode :=
  let opMode := Rec.pyGet r "iduOperatingMode"
  if valueMem opMode WALL_UNIT_FAN_MODE_VALUES then some .fanOnly
  else if pyEq opMode (.int 1) then some .heat
  else if pyEq opMode (.int 2) then some .cool
  else if pyEq opMode (.int 3) then some .auto
  else if pyEq opMode (.int 5) then some .dry
  else none

/-- `Thermostat._wall_unit_fan_speed_key` (climate.py lines 541-548). -/
def wall_unit_fan_speed_key_entity : HVACMode → Option String
  | .heat => some "iduHeatFanSpeed"
  | .cool => some "iduCoolFanSpeed"
  | .auto => some "iduAutoFanSpeed"
  | .dry => some "iduDryFanSpeed"
  | .fanOnly => some "iduFanModeFanSpeed"
  | .off => none

/-- `Thermostat._wall_unit_fan_speed` (climate.py lines 550-559);
`Value.null` stands for the Python `None` returned on every early exit. -/
def wall_unit_fan_speed (r : Record) (entityMode : HVACMode) : Value :=
  let hm : Option HVACMode :=
    if entityMode = .off then wall_unit_operating_mode r else some entityMode
  match hm with
  | none => .null
  | some m =>
    match wall_unit_fan_speed_key_entity m with
    | none => .null
    | some k => Rec.pyGet r k

/-- The per-mode fan-speed values collected in climate.py lines 585-595:
numeric (int/float/bool) values of the five idu fan-speed fields. -/
def wallFanValues (r : Record) : List ℚ :=
  ["iduHeatFanSpeed", "iduCoolFanSpeed", "iduAutoFanSpeed",
   "iduDryFanSpeed", "iduFanModeFanSpeed"].filterMap
    fun k => (Rec.pyGet r k).toNum

/-- `Thermostat._refresh_supported_features_for_mode` (climate.py
lines 488-496). -/
def refresh_supported_features (isWallUnit : Bool) (base : Features)
    (fanModes : List String) (mode : HVACMode) : Features :=
  let f := base
  let f := if fanModes.isEmpty then { f with fanMode := false } else f
  if isWallUnit && (mode = HVACMode.dry) then
    { f with targetTemperature := false, targetTemperatureRange := false,
             fanMode := false }
  else f

/-- The resolved entity state for a wall unit. -/
structure WallState where
  hvacMode : HVACMode
  coolSetpoint : Value
  heatSetpoint : Value
  targetTemp : Value
  presetMode : String
  fanMode : Option String
  fanModes : List String
  fanSpeed : Option String
  supportedFeatures : Features
deriving DecidableEq, Repr

/-- `Thermostat._apply_thermostat_state`, wall-unit branch (climate.py
lines 561-612). -/
def apply_wall_unit_state (r : Record) : WallState :=
  let hvacMode := wall_unit_hvac_mode r
  let coolSetpoint := Rec.pyGetD r "iduCoolSetpoint" (Rec.pyGet r "cspActive")
  let heatSetpoint := Rec.pyGetD r "iduHeatSetpoint" (Rec.pyGet r "hspActive")
  let targetTemp0 := Rec.pyGet r "iduTargetTemp"
  let targetTemp :=
    if targetTemp0 = Value.null then
      if hvacMode = HVACMode.heat then heatSetpoint
      else if hvacMode = HVACMode.cool then coolSetpoint
      else Rec.pyGetD r "iduAutoSetpoint" (pyOr coolSetpoint heatSetpoint)
    else targetTemp0
  let presetMode :=
    if truthy (Rec.pyGet r "oduPowerfulOperationRequest") then "Boost"
    else if truthy (Rec.pyGet r "iduEconoModeSetting") then "Econo"
    else "none"
  let fanSpeedVal := wall_unit_fan_speed r hvacMode
  let fanMode : Option String :=
    if fanSpeedVal = Value.null then none else some (wallUnitFanLabel fanSpeedVal)
  let fanValuesSet := ((wallFanValues r).map intTrunc).dedup
  let fanModes : List String :=
    if Rec.contains r "iduFanModeFanSpeed" then
      WALL_UNIT_FAN_SPEED_ORDER.map wallUnitFanLabelOfCode
    else
      (WALL_UNIT_FAN_SPEED_ORDER.filter (· ∈ fanValuesSet)).map
        wallUnitFanLabelOfCode
  let unknowns :=
    (fanValuesSet.filter (· ∉ WALL_UNIT_FAN_SPEED_ORDER)).mergeSort
      (fun a b => a ≤ b)
  let fanModes := fanModes ++ unknowns.map toString
  let fanModes := if hvacMode = HVACMode.dry then [] else fanModes
  let fanMode := if hvacMode = HVACMode.dry then none else fanMode
  let supported :=
    refresh_supported_features true wallUnitBaseFeatures fanModes hvacMode
  ⟨hvacMode, coolSetpoint, heatSetpoint, targetTemp, presetMode, fanMode,
   fanModes, none, supported⟩

/-- The `target_temperature` property for a wall unit (climate.py
lines 699-705): `None` in dry mode, otherwise the resolved target. -/
def wall_target_temperature (st : WallState) : Value :=
  if st.hvacMode = HVACMode.dry then .null else st.targetTemp

/-- C4: for every WallUnit record whose resolved current mode is Dry,
the resolver clears the temperature-target, temperature-range and
fan-mode feature flags, leaves no available fan-mode choices, and the
reported target temperature is None. -/
theorem wall_unit_dry_suppression (r : Record)
    (hw : climate_is_wall_unit r = true)
    (hd : (apply_wall_unit_state r).hvacMode = HVACMode.dry) :
    (apply_wall_unit_state r).supportedFeatures.targetTemperature = false ∧
      (apply_wall_unit_state r).supportedFeatures.targetTemperatureRange = false ∧
      (apply_wall_unit_state r).supportedFeatures.fanMode = false ∧
      (apply_wall_unit_state r).fanModes = [] ∧
      wall_target_temperature (apply_wall_unit_state r) = Value.null := by
  have hm : wall_unit_hvac_mode r = HVACMode.dry := by
    simpa [apply_wall_unit_state] using hd
  simp [apply_wall_unit_state, wall_target_temperature,
    refresh_supported_features, wallUnitBaseFeatures, hm]

/-- Witness for C4, the spec's scenario record: `iduOperatingMode = 5`,
`iduOnOff = true`, `iduDryFanSpeed = 3` resolves to Dry with empty fan
choices, cleared temperature features, and no target temperature. -/
theorem wall_unit_dry_suppression_witness :
    climate_is_wall_unit
        [("iduOperatingMode", Value.int 5), ("iduOnOff", Value.bool true),
         ("iduDryFanSpeed", Value.int 3)] = true ∧
      (apply_wall_unit_state
        [("iduOperatingMode", Value.int 5), ("iduOnOff", Value.bool true),
         ("iduDryFanSpeed", Value.int 3)]).hvacMode = HVACMode.dry ∧
      (apply_wall_unit_state
        [("iduOperatingMode", Value.int 5), ("iduOnOff", Value.bool true),
         ("iduDryFanSpeed", Value.int 3)]).supportedFeatures.targetTemperature
        = false ∧
      (apply_wall_unit_state
        [("iduOperatingMode", Value.int 5), ("iduOnOff", Value.bool true),
         ("iduDryFanSpeed", Value.int 3)]).fanModes = [] ∧
      wall_target_temperature (apply_wall_unit_state
        [("iduOperatingMode", Value.int 5), ("iduOnOff", Value.bool true),
         ("iduDryFanSpeed", Value.int 3)]) = Value.null := by
  have h := wall_unit_dry_suppression
    [("iduOperatingMode", Value.int 5), ("iduOnOff", Value.bool true),
     ("iduDryFanSpeed", Value.int 3)] (by decide) (by decide)
  exact ⟨by decide, by decide, h.1, h.2.2.2.1, h.2.2.2.2⟩

/-!
Wall-unit set-temperature (claim C7):
`DaikinSkyport.set_wall_unit_temperature` (daikinskyport.py
lines 656-685).  Python floats are modelled as rationals; `round` is
Python 3 banker's rounding (round half to even).
-/

/-- Python 3 `round(q)`: nearest integer, ties to the even neighbour. -/
def pyRound (q : ℚ) : ℤ :=
  if Int.fract q < 1/2 then ⌊q⌋
  else if 1/2 < Int.fract q then ⌊q⌋ + 1
  else if ⌊q⌋ % 2 = 0 then ⌊q⌋ else ⌊q⌋ + 1

/-- Python `round(q, 1)`: round to one decimal digit. -/
def roundTo1 (q : ℚ) : ℚ := (pyRound (q * 10) : ℚ) / 10

/-- The composite rounding of daikinskyport.py lines 661-662:
`round(temperature * 2) / 2` followed by `round(·, 1)`. -/
def wallUnitRound (t : ℚ) : ℚ := roundTo1 ((pyRound (t * 2) : ℚ) / 2)

theorem pyRound_intCast (n : ℤ) : pyRound ((n : ℚ)) = n := by
  unfold pyRound
  rw [Int.fract_intCast]
  norm_num

theorem abs_pyRound_sub_le (q : ℚ) : |(pyRound q : ℚ) - q| ≤ 1/2 := by
  have hfl : (⌊q⌋ : ℚ) + Int.fract q = q := Int.floor_add_fract q
  have h0 : 0 ≤ Int.fract q := Int.fract_nonneg q
  have h1 : Int.fract q < 1 := Int.fract_lt_one q
  unfold pyRound
  split_ifs with hlt hgt heven
  · have : (⌊q⌋ : ℚ) - q = -(Int.fract q) := by linarith
    rw [this, abs_neg, abs_of_nonneg h0]
    linarith
  · have : ((⌊q⌋ + 1 : ℤ) : ℚ) - q = 1 - Int.fract q := by push_cast; linarith
    rw [this, abs_of_nonneg (by linarith)]
    linarith
  · have heq : Int.fract q = 1/2 := le_antisymm (not_lt.mp hgt) (not_lt.mp hlt)
    have : (⌊q⌋ : ℚ) - q = -(1/2 : ℚ) := by rw [← heq]; linarith
    rw [this, abs_neg, abs_of_nonneg (by norm_num : (0:ℚ) ≤ 1/2)]
  · have heq : Int.fract q = 1/2 := le_antisymm (not_lt.mp hgt) (not_lt.mp hlt)
    have : ((⌊q⌋ + 1 : ℤ) : ℚ) - q = 1/2 := by push_cast; rw [← heq]; linarith
    rw [this, abs_of_nonneg (by norm_num : (0:ℚ) ≤ 1/2)]

/-- One-decimal rounding fixes half-integers. -/
theorem roundTo1_half (k : ℤ) : roundTo1 ((k : ℚ) / 2) = (k : ℚ) / 2 := by
  unfold roundTo1
  have h : ((k : ℚ) / 2) * 10 = ((5 * k : ℤ) : ℚ) := by push_cast; ring
  rw [h, pyRound_intCast]
  push_cast
  ring

theorem wallUnitRound_eq (t : ℚ) :
    wallUnitRound t = (pyRound (t * 2) : ℚ) / 2 := by
  unfold wallUnitRound
  exact roundTo1_half _

theorem abs_wallUnitRound_sub_le (t : ℚ) : |wallUnitRound t - t| ≤ 1/4 := by
  rw [wallUnitRound_eq]
  have h := abs_pyRound_sub_le (t * 2)
  have h2 : (pyRound (t * 2) : ℚ) / 2 - t = ((pyRound (t * 2) : ℚ) - t * 2) / 2 := by
    ring
  rw [h2, abs_div]
  rw [abs_of_nonneg (by norm_num : (0:ℚ) ≤ 2)]
  linarith

/-- The result and optimistic state of one `set_wall_unit_temperature`
call on the cached record of the addressed device: the updated cached
record, and the request body actually sent (`none` when the function
returns before `make_request`). -/
structure WallTempResult where
  record : Record
  sent : Option Record
deriving DecidableEq, Repr

/-- `DaikinSkyport.set_wall_unit_temperature` (daikinskyport.py
lines 656-685), acting on the cached record of the given device. -/
def set_wall_unit_temperature (r : Record) (temperature : Option ℚ)
    (hvacMode : Option Value) : WallTempResult :=
  match temperature with
  | none => ⟨r, none⟩
  | some t0 =>
    let t := roundTo1 ((pyRound (t0 * 2) : ℚ) / 2)
    let mode :=
      match hvacMode with
      | none => Rec.pyGet r "mode"
      | some m => m
    let body : Record :=
      if Rec.contains r "oduPowerfulOperationRequest" then
        Rec.set [] "oduPowerfulOperationRequest"
          (.bool (truthy (Rec.pyGet r "oduPowerfulOperationRequest")))
      else []
    if pyEq mode (.int DAIKIN_HVAC_MODE_COOL) then
      let body := Rec.set body "iduCoolSetpoint" (.rat t)
      let r := Rec.set r "iduCoolSetpoint" (.rat t)
      let r := if mode ≠ Value.null then Rec.set r "mode" mode else r
      ⟨r, some body⟩
    else if pyEq mode (.int DAIKIN_HVAC_MODE_HEAT) then
      let body := Rec.set body "iduHeatSetpoint" (.rat t)
      let r := Rec.set r "iduHeatSetpoint" (.rat t)
      let r := if mode ≠ Value.null then Rec.set r "mode" mode else r
      ⟨r, some body⟩
    else if pyEq mode (.int DAIKIN_HVAC_MODE_AUTO) then
      let body := Rec.set body "iduAutoSetpoint" (.rat t)
      let r := Rec.set r "iduAutoSetpoint" (.rat t)
      let r := if mode ≠ Value.null then Rec.set r "mode" mode else r
      ⟨r, some body⟩
    else if pyEq mode (.int DAIKIN_HVAC_MODE_DRY) then
      ⟨r, none⟩
    else
      let r := if mode ≠ Value.null then Rec.set r "mode" mode else r
      ⟨r, some body⟩

theorem pyEq_int_iff (v : Value) (a : ℤ) :
    pyEq v (.int a) = true ↔ v.toNum = some ((a : ℚ)) := by
  cases v <;> simp [pyEq, Value.toNum]

theorem pyEq_int_unique (v : Value) (a b : ℤ) (h : pyEq v (.int a) = true)
    (hab : a ≠ b) : pyEq v (.int b) = false := by
  rw [pyEq_int_iff] at h
  rw [← Bool.not_eq_true, pyEq_int_iff, h]
  have hq : ((a : ℚ)) ≠ ((b : ℚ)) := by exact_mod_cast hab
  simp [hq]

theorem pyEq_int_not_null (v : Value) (a : ℤ) (h : pyEq v (.int a) = true) :
    v ≠ Value.null := by
  intro hv
  subst hv
  simp [pyEq, Value.toNum] at h

/-- C7: a wall-unit set-temperature with a numeric input stores and
sends the input rounded to a nearest half-degree (written to the
setpoint field matching the current mode); the rounded value is always
a half-integer within a quarter degree of the input (hence a nearest
0.5 increment), 21.3 rounds to 21.5, 21.2 rounds to 21.0, the exact
quarter-tie 21.25 rounds to the nearest-half value 21.0, and in Dry
mode the call is a no-op with no network request. -/
theorem set_wall_unit_temperature_spec (r : Record) (t : ℚ) :
    (pyEq (Rec.pyGet r "mode") (.int DAIKIN_HVAC_MODE_COOL) = true →
      Rec.get (set_wall_unit_temperature r (some t) none).record
          "iduCoolSetpoint" = some (.rat (wallUnitRound t)) ∧
        ∃ body, (set_wall_unit_temperature r (some t) none).sent = some body ∧
          Rec.get body "iduCoolSetpoint" = some (.rat (wallUnitRound t))) ∧
    (pyEq (Rec.pyGet r "mode") (.int DAIKIN_HVAC_MODE_HEAT) = true →
      Rec.get (set_wall_unit_temperature r (some t) none).record
          "iduHeatSetpoint" = some (.rat (wallUnitRound t)) ∧
        ∃ body, (set_wall_unit_temperature r (some t) none).sent = some body ∧
          Rec.get body "iduHeatSetpoint" = some (.rat (wallUnitRound t))) ∧
    (pyEq (Rec.pyGet r "mode") (.int DAIKIN_HVAC_MODE_AUTO) = true →
      Rec.get (set_wall_unit_temperature r (some t) none).record
          "iduAutoSetpoint" = some (.rat (wallUnitRound t)) ∧
        ∃ body, (set_wall_unit_temperature r (some t) none).sent = some body ∧
          Rec.get body "iduAutoSetpoint" = some (.rat (wallUnitRound t))) ∧
    (pyEq (Rec.pyGet r "mode") (.int DAIKIN_HVAC_MODE_DRY) = true →
      set_wall_unit_temperature r (some t) none = ⟨r, none⟩) ∧
    (∃ k : ℤ, wallUnitRound t = (k : ℚ) / 2) ∧
    |wallUnitRound t - t| ≤ 1/4 ∧
    wallUnitRound (213/10) = 43/2 ∧
    wallUnitRound (106/5) = 21 ∧
    wallUnitRound (85/4) = 21 := by
  refine ⟨?_, ?_, ?_, ?_, ⟨pyRound (t * 2), wallUnitRound_eq t⟩,
    abs_wallUnitRound_sub_le t, ?_, ?_, ?_⟩
  · intro h
    have hnn : Rec.pyGet r "mode" ≠ Value.null := pyEq_int_not_null _ _ h
    simp only [set_wall_unit_temperature, h, if_true, ne_eq, hnn,
      not_false_iff, if_pos]
    constructor
    · rw [Rec.get_set_ne _ _ _ _ (by decide), Rec.get_set_self]
      rfl
    · exact ⟨_, rfl, by rw [Rec.get_set_self]; rfl⟩
  · intro h
    have hnn : Rec.pyGet r "mode" ≠ Value.null := pyEq_int_not_null _ _ h
    have hc : pyEq (Rec.pyGet r "mode") (.int DAIKIN_HVAC_MODE_COOL) = false :=
      pyEq_int_unique _ _ _ h (by decide)
    simp only [set_wall_unit_temperature, h, hc, Bool.false_eq_true, if_false,
      if_true, ne_eq, hnn, not_false_iff, if_pos]
    constructor
    · rw [Rec.get_set_ne _ _ _ _ (by decide), Rec.get_set_self]
      rfl
    · exact ⟨_, rfl, by rw [Rec.get_set_self]; rfl⟩
  · intro h
    have hnn : Rec.pyGet r "mode" ≠ Value.null := pyEq_int_not_null _ _ h
    have hc : pyEq (Rec.pyGet r "mode") (.int DAIKIN_HVAC_MODE_COOL) = false :=
      pyEq_int_unique _ _ _ h (by decide)
    have hh : pyEq (Rec.pyGet r "mode") (.int DAIKIN_HVAC_MODE_HEAT) = false :=
      pyEq_int_unique _ _ _ h (by decide)
    simp only [set_wall_unit_temperature, h, hc, hh, Bool.false_eq_true,
      if_false, if_true, ne_eq, hnn, not_false_iff, if_pos]
    constructor
    · rw [Rec.get_set_ne _ _ _ _ (by decide), Rec.get_set_self]
      rfl
    · exact ⟨_, rfl, by rw [Rec.get_set_self]; rfl⟩
  · intro h
    have hc : pyEq (Rec.pyGet r "mode") (.int DAIKIN_HVAC_MODE_COOL) = false :=
      pyEq_int_unique _ _ _ h (by decide)
    have hh : pyEq (Rec.pyGet r "mode") (.int DAIKIN_HVAC_MODE_HEAT) = false :=
      pyEq_int_unique _ _ _ h (by decide)
    have ha : pyEq (Rec.pyGet r "mode") (.int DAIKIN_HVAC_MODE_AUTO) = false :=
      pyEq_int_unique _ _ _ h (by decide)
    simp only [set_wall_unit_temperature, h, hc, hh, ha, Bool.false_eq_true,
      if_false, if_true]
  · have h2 : (213/10 : ℚ) * 2 = 213/5 := by norm_num
    rw [wallUnitRound_eq, h2]
    norm_num [pyRound, Int.fract]
  · have h2 : (106/5 : ℚ) * 2 = 212/5 := by norm_num
    rw [wallUnitRound_eq, h2]
    norm_num [pyRound, Int.fract]
  · have h2 : (85/4 : ℚ) * 2 = 85/2 := by norm_num
    rw [wallUnitRound_eq, h2]
    norm_num [pyRound, Int.fract]

/-- Witness for C7: with the cached record in cool mode, setting 21
degrees writes the rounded value to `iduCoolSetpoint` in both the cache
and the request body. -/
theorem set_wall_unit_temperature_spec_witness :
    pyEq (Rec.pyGet [("mode", Value.int 2)] "mode")
        (.int DAIKIN_HVAC_MODE_COOL) = true ∧
      Rec.get (set_wall_unit_temperature [("mode", Value.int 2)]
          (some 21) none).record "iduCoolSetpoint" =
        some (.rat (wallUnitRound 21)) := by
  refine ⟨by decide, ?_⟩
  exact ((set_wall_unit_temperature_spec [("mode", Value.int 2)] 21).1
    (by decide)).1

/-!
Mutation calls and their optimistic (shadow) cache updates (claim C8).
Each function below models the effect of the corresponding
`DaikinSkyport` method on the cached record of the addressed device
(`self.thermostats[index]`) together with the request body passed to
`make_request`.  Python `KeyError`/`TypeError` paths (a missing or
non-numeric cached default) are modelled as `none`.
-/

/-- The cached record after a mutation and the body it sent. -/
structure MutationResult where
  record : Record
  body : Record
deriving DecidableEq, Repr

/-- `DaikinSkyport.set_hvac_mode` (daikinskyport.py lines 430-435). -/
def set_hvac_mode (r : Record) (hvacMode : Value) : MutationResult :=
  ⟨Rec.set r "mode" hvacMode, [("mode", hvacMode)]⟩

/-- `DaikinSkyport.set_fan_mode` (lines 455-460). -/
def set_fan_mode (r : Record) (fanMode : Value) : MutationResult :=
  ⟨Rec.set r "fanCirculate" fanMode, [("fanCirculate", fanMode)]⟩

/-- `DaikinSkyport.set_fan_speed` (lines 462-467). -/
def set_fan_speed (r : Record) (fanSpeed : Value) : MutationResult :=
  ⟨Rec.set r "fanCirculateSpeed" fanSpeed, [("fanCirculateSpeed", fanSpeed)]⟩

/-- `DaikinSkyport.set_fan_clean` (lines 469-474): no cache update. -/
def set_fan_clean (r : Record) (active : Value) : MutationResult :=
  ⟨r, [("oneCleanFanActive", active)]⟩

/-- `DaikinSkyport.set_dual_fuel_efficiency` (lines 476-481). -/
def set_dual_fuel_efficiency (r : Record) (active : Value) : MutationResult :=
  ⟨r, [("ctDualFuelFurnaceLockoutEnable", active)]⟩

/-- `DaikinSkyport.set_thermostat_schedule` (lines 437-453). -/
def set_thermostat_schedule (r : Record) (pre : String)
    (start enable label heating cooling : Value) : MutationResult :=
  ⟨r, [(pre ++ "Time", start), (pre ++ "Enabled", enable),
       (pre ++ "Label", label), (pre ++ "hsp", heating),
       (pre ++ "csp", cooling)]⟩

/-- Python `if arg is None: arg = fallback` on an optional call
argument; a `none` fallback models the KeyError/TypeError raised when
the cached default is missing or non-numeric. -/
def resolveArg {A : Type} (arg : Option A) (fallback : Option A) :
    Option A :=
  match arg with
  | some v => some v
  | none => fallback

/-- `DaikinSkyport.set_temp_hold` (lines 483-502). -/
def set_temp_hold (r : Record) (coolTemp heatTemp : Option ℚ)
    (holdDuration : Option Value) : Option MutationResult := do
  let hd ← resolveArg holdDuration (Rec.get r "schedOverrideDuration")
  let ct ← resolveArg coolTemp ((Rec.get r "cspHome").bind Value.toNum)
  let ht ← resolveArg heatTemp ((Rec.get r "hspHome").bind Value.toNum)
  let bh := Value.rat (roundTo1 ht)
  let bc := Value.rat (roundTo1 ct)
  let body : Record := [("hspHome", bh), ("cspHome", bc),
    ("schedOverride", .int 1), ("schedOverrideDuration", hd)]
  let r := Rec.set r "hspHome" bh
  let r := Rec.set r "cspHome" bc
  let r := Rec.set r "schedOverride" (.int 1)
  let r := Rec.set r "schedOverrideDuration" hd
  pure ⟨r, body⟩

/-- `DaikinSkyport.set_permanent_hold` (lines 504-522). -/
def set_permanent_hold (r : Record) (coolTemp heatTemp : Option ℚ) :
    Option MutationResult := do
  let ct ← resolveArg coolTemp ((Rec.get r "cspHome").bind Value.toNum)
  let ht ← resolveArg heatTemp ((Rec.get r "hspHome").bind Value.toNum)
  let bh := Value.rat (roundTo1 ht)
  let bc := Value.rat (roundTo1 ct)
  let body : Record := [("hspHome", bh), ("cspHome", bc),
    ("schedOverride", .int 0), ("schedEnabled", .bool false)]
  let r := Rec.set r "hspHome" bh
  let r := Rec.set r "cspHome" bc
  let r := Rec.set r "schedOverride" (.int 0)
  let r := Rec.set r "schedEnabled" (.bool false)
  pure ⟨r, body⟩

/-- `DaikinSkyport.set_away` (lines 524-539); explicitly passed
temperatures are sent unrounded, defaults are rounded cache values. -/
def set_away (r : Record) (mode : Value) (heatTemp coolTemp : Option ℚ) :
    Option MutationResult := do
  let ht ← resolveArg (heatTemp.map Value.rat)
    (((Rec.get r "hspAway").bind Value.toNum).map
      fun q => Value.rat (roundTo1 q))
  let ct ← resolveArg (coolTemp.map Value.rat)
    (((Rec.get r "cspAway").bind Value.toNum).map
      fun q => Value.rat (roundTo1 q))
  let body : Record := [("geofencingAway", mode), ("hspAway", ht),
    ("cspAway", ct)]
  let r := Rec.set r "geofencingAway" mode
  let r := Rec.set r "hspAway" ht
  let r := Rec.set r "cspAway" ct
  pure ⟨r, body⟩

/-- `DaikinSkyport.resume_program` (lines 541-549): sends the
schedule-resume body with no shadow update of the cached record. -/
def resume_program (r : Record) : MutationResult :=
  ⟨r, [("schedEnabled", .bool true), ("schedOverride", .int 0),
       ("geofencingAway", .bool false)]⟩

/-- `DaikinSkyport.set_fan_schedule` (lines 551-564). -/
def set_fan_schedule (r : Record) (start stop interval speed : Value) :
    MutationResult :=
  ⟨r, [("fanCirculateStart", start), ("fanCirculateStop", stop),
       ("fanCirculateDuration", interval), ("fanCirculateSpeed", speed)]⟩

/-- `DaikinSkyport.set_night_mode` (lines 566-574). -/
def set_night_mode (r : Record) (start stop enable : Value) :
    MutationResult :=
  ⟨r, [("nightModeStart", start), ("nightModeStop", stop),
       ("nightModeEnabled", enable)]⟩

/-- `DaikinSkyport.set_econo_mode` (lines 576-581). -/
def set_econo_mode (r : Record) (active : Value) : MutationResult :=
  ⟨Rec.set r "iduEconoModeSetting" active,
   [("iduEconoModeSetting", active)]⟩

/-- `DaikinSkyport.set_boost_mode` (lines 583-588). -/
def set_boost_mode (r : Record) (active : Value) : MutationResult :=
  ⟨Rec.set r "oduPowerfulOperationRequest" active,
   [("oduPowerfulOperationRequest", active)]⟩

/-- `DaikinSkyport.set_humidity` (lines 590-601). -/
def set_humidity (r : Record) (low high : Option Value) :
    Option MutationResult := do
  let lo ← resolveArg low (Rec.get r "humSP")
  let hi ← resolveArg high (Rec.get r "dehumSP")
  pure ⟨r, [("dehumSP", hi), ("humSP", lo)]⟩

/-- Every field of the request body is also stored with the same value
in the cached record. -/
def shadowConsistent (m : MutationResult) : Prop :=
  ∀ k v, Rec.get m.body k = some v → Rec.get m.record k = some v

/-- C8 counterexample: `resume_program` sends `schedEnabled = true` in
its request body but leaves the cached record untouched, so a record
caching `schedEnabled = false` still reads `false` right after the
mutation — the claim that every mutation shadow-writes all the fields
it sends is false. -/
theorem resume_program_no_shadow_update :
    Rec.get (resume_program [("schedEnabled", Value.bool false)]).body
        "schedEnabled" = some (Value.bool true) ∧
      Rec.get (resume_program [("schedEnabled", Value.bool false)]).record
        "schedEnabled" = some (Value.bool false) := by
  decide

theorem foldl_set_get_ne (l : List (String × Value)) (r : Record)
    (k : String) (h : ∀ kv ∈ l, k ≠ kv.1) :
    Rec.get (l.foldl (fun acc kv => Rec.set acc kv.1 kv.2) r) k =
      Rec.get r k := by
  induction l generalizing r with
  | nil => rfl
  | cons kv rest ih =>
    simp only [List.foldl_cons]
    rw [ih _ fun p hp => h p (List.mem_cons_of_mem kv hp)]
    exact Rec.get_set_ne r kv.1 k kv.2 (h kv (List.mem_cons_self kv rest))

/-- Writing a duplicate-free body fieldwise into the cache makes every
body field readable back with the same value. -/
theorem shadow_foldl (r : Record) (l : List (String × Value))
    (h : (l.map Prod.fst).Nodup) :
    shadowConsistent
      ⟨l.foldl (fun acc kv => Rec.set acc kv.1 kv.2) r, l⟩ := by
  induction l generalizing r with
  | nil => intro k w hw; simp [Rec.get] at hw
  | cons kv rest ih =>
    simp only [List.map_cons, List.nodup_cons] at h
    intro k w hw
    simp only [Rec.get] at hw
    by_cases hk : kv.1 = k
    · rw [if_pos hk] at hw
      subst hk
      simp only [Option.some.injEq] at hw
      subst hw
      show Rec.get (List.foldl _ (Rec.set r kv.1 kv.2) rest) kv.1 = _
      rw [foldl_set_get_ne rest _ kv.1
            (fun p hp hpk => h.1 (hpk ▸ List.mem_map_of_mem Prod.fst hp))]
      exact Rec.get_set_self r kv.1 kv.2
    · rw [if_neg hk] at hw
      exact ih (Rec.set r kv.1 kv.2) h.2 k w hw

/-- C8 amended: the mutations that change mode, fan circulate mode and
speed, temperature holds, away state, econo and boost write every field
of their request body to the cached record with the same value before
the network call; the schedule, fan-clean, dual-fuel, fan-schedule,
night-mode, humidity and resume-program mutations send their body with
no cache update at all. -/
theorem mutation_shadow_characterization :
    (∀ r v, shadowConsistent (set_hvac_mode r v)) ∧
      (∀ r v, shadowConsistent (set_fan_mode r v)) ∧
      (∀ r v, shadowConsistent (set_fan_speed r v)) ∧
      (∀ r v, shadowConsistent (set_econo_mode r v)) ∧
      (∀ r v, shadowConsistent (set_boost_mode r v)) ∧
      (∀ r ct ht hd m, set_temp_hold r ct ht hd = some m →
        shadowConsistent m) ∧
      (∀ r ct ht m, set_permanent_hold r ct ht = some m →
        shadowConsistent m) ∧
      (∀ r mo ht ct m, set_away r mo ht ct = some m → shadowConsistent m) ∧
      (∀ r, (resume_program r).record = r) ∧
      (∀ r pre s e l hs cs,
        (set_thermostat_schedule r pre s e l hs cs).record = r) ∧
      (∀ r v, (set_fan_clean r v).record = r) ∧
      (∀ r v, (set_dual_fuel_efficiency r v).record = r) ∧
      (∀ r a b c d, (set_fan_schedule r a b c d).record = r) ∧
      (∀ r a b c, (set_night_mode r a b c).record = r) ∧
      (∀ r lo hi m, set_humidity r lo hi = some m → m.record = r) := by
  refine ⟨fun r v => shadow_foldl r [("mode", v)] (by simp),
    fun r v => shadow_foldl r [("fanCirculate", v)] (by simp),
    fun r v => shadow_foldl r [("fanCirculateSpeed", v)] (by simp),
    fun r v => shadow_foldl r [("iduEconoModeSetting", v)] (by simp),
    fun r v => shadow_foldl r [("oduPowerfulOperationRequest", v)] (by simp),
    ?_, ?_, ?_, fun r => rfl, fun r pre s e l hs cs => rfl, fun r v => rfl,
    fun r v => rfl, fun r a b c d => rfl, fun r a b c => rfl, ?_⟩
  · intro r ct ht hd m hm
    simp only [set_temp_hold, bind, Option.bind_eq_some] at hm
    obtain ⟨dv, _, hm⟩ := hm
    obtain ⟨cv, _, hm⟩ := hm
    obtain ⟨hv, _, hm⟩ := hm
    simp only [pure, Option.some.injEq] at hm
    subst hm
    exact shadow_foldl r
      [("hspHome", .rat (roundTo1 hv)), ("cspHome", .rat (roundTo1 cv)),
       ("schedOverride", .int 1), ("schedOverrideDuration", dv)] (by simp)
  · intro r ct ht m hm
    simp only [set_permanent_hold, bind, Option.bind_eq_some] at hm
    obtain ⟨cv, _, hm⟩ := hm
    obtain ⟨hv, _, hm⟩ := hm
    simp only [pure, Option.some.injEq] at hm
    subst hm
    exact shadow_foldl r
      [("hspHome", .rat (roundTo1 hv)), ("cspHome", .rat (roundTo1 cv)),
       ("schedOverride", .int 0), ("schedEnabled", .bool false)] (by simp)
  · intro r mo ht ct m hm
    simp only [set_away, bind, Option.bind_eq_some] at hm
    obtain ⟨hv, _, hm⟩ := hm
    obtain ⟨cv, _, hm⟩ := hm
    simp only [pure, Option.some.injEq] at hm
    subst hm
    exact shadow_foldl r
      [("geofencingAway", mo), ("hspAway", hv), ("cspAway", cv)] (by simp)
  · intro r lo hi m hm
    simp only [set_humidity, bind, Option.bind_eq_some] at hm
    obtain ⟨lv, _, hm⟩ := hm
    obtain ⟨hv, _, hm⟩ := hm
    simp only [pure, Option.some.injEq] at hm
    subst hm
    rfl

/-- Witness for C8 amended: a concrete `set_hvac_mode` call writes the
sent mode value into the cache. -/
theorem mutation_shadow_characterization_witness :
    Rec.get (set_hvac_mode [] (Value.int 1)).body "mode" =
        some (Value.int 1) ∧
      Rec.get (set_hvac_mode [] (Value.int 1)).record "mode" =
        some (Value.int 1) := by
  refine ⟨by decide, ?_⟩
  exact mutation_shadow_characterization.1 [] (Value.int 1) "mode"
    (Value.int 1) (by decide)

/-!
The one-shot skip-next-poll flag (claim C9): `make_request` sets
`self.skip_next = True` as its first statement (daikinskyport.py
lines 399-400) and `update` (lines 390-397) consumes it.
-/

/-- The client state relevant to polling: the cached device list and the
one-shot `skip_next` flag (daikinskyport.py lines 59-62). -/
structure ClientState where
  thermostats : List Record
  skipNext : Bool
deriving DecidableEq, Repr

/-- The state effect of entering `make_request` (line 400): every
mutation call reaches this as its first step, so every issued mutation
sets the one-shot flag. -/
def make_request_entry (s : ClientState) : ClientState :=
  { s with skipNext := true }

/-- `DaikinSkyport.update` (lines 390-397): when `skip_next` is set the
update is skipped (no fetch, cache unchanged) and the flag cleared;
otherwise `get_thermostats` runs.  The network merge performed by
`get_thermostats` is abstracted as a function on the cached list; the
returned boolean records whether a fetch was performed. -/
def update (fetch : List Record → List Record) (s : ClientState) :
    ClientState × Bool :=
  if s.skipNext then ({ s with skipNext := false }, false)
  else ({ s with thermostats := fetch s.thermostats }, true)

/-- C9: after any mutation (which enters `make_request` and so sets the
one-shot flag) the next `update` performs no fetch, leaves every cached
record unchanged and clears the flag, and the update after that fetches
normally — exactly one poll is suppressed per mutation. -/
theorem skip_next_poll_protocol (s : ClientState)
    (fetch1 fetch2 : List Record → List Record) :
    (make_request_entry s).skipNext = true ∧
      (update fetch1 (make_request_entry s)).2 = false ∧
      (update fetch1 (make_request_entry s)).1.thermostats =
        (make_request_entry s).thermostats ∧
      (update fetch1 (make_request_entry s)).1.skipNext = false ∧
      (update fetch2 (update fetch1 (make_request_entry s)).1).2 = true ∧
      (update fetch2 (update fetch1 (make_request_entry s)).1).1.thermostats =
        fetch2 s.thermostats := by
  simp [make_request_entry, update]

/-!
Central single-setpoint temperature holds (claim C10):
`Thermostat.set_temp_hold` (climate.py lines 1038-1049) and the central
branch of `Thermostat.set_temperature` (lines 1075-1089).
-/

/-- Outcome of the entity-level `set_temp_hold`: either
`set_auto_temp_hold` is invoked with these heat/cool values (in that
argument order), or the call raises before reaching it — a `KeyError`
while reading the stored home setpoint, or Python's
uninitialized-local (`UnboundLocalError`) when the mode matches neither
branch of the if/elif and the local variables were never assigned.
`unboundLocalError` and `keyError` abort before any Client mutation or
shadow update. -/
inductive TempHoldOutcome where
  | proceeds (heatTemp coolTemp : Value)
  | keyError
  | unboundLocalError
deriving DecidableEq, Repr

/-- `Thermostat.set_temp_hold` (climate.py lines 1038-1046). -/
def entity_set_temp_hold (mode : HVACMode) (r : Record) (temp : ℚ) :
    TempHoldOutcome :=
  if mode = HVACMode.heat then
    if Rec.contains r "cspHome" then
      .proceeds (.rat temp) (Rec.pyGet r "cspHome")
    else .keyError
  else if mode = HVACMode.cool then
    if Rec.contains r "hspHome" then
      .proceeds (Rec.pyGet r "hspHome") (.rat temp)
    else .keyError
  else .unboundLocalError

/-- Routing outcome of the central branch of
`Thermostat.set_temperature` (climate.py lines 1075-1086). -/
inductive CentralSetTempOutcome where
  | autoHold (low high : Option ℚ)
  | tempHold (o : TempHoldOutcome)
  | missingArgs
deriving DecidableEq, Repr

/-- The central branch of `Thermostat.set_temperature`: an Auto-mode
call with a low or high bound routes to `set_auto_temp_hold`; otherwise
a plain temperature routes to `set_temp_hold`; with no usable argument
the call only logs. -/
def entity_set_temperature_central (mode : HVACMode) (r : Record)
    (low high temp : Option ℚ) : CentralSetTempOutcome :=
  if mode = HVACMode.auto ∧ (low ≠ none ∨ high ≠ none) then
    .autoHold low high
  else
    match temp with
    | some t => .tempHold (entity_set_temp_hold mode r t)
    | none => .missingArgs

/-- C10: the entity-level single-setpoint hold is only total when the
current mode is Heat or Cool.  In Heat mode it passes the given
temperature as the heat setpoint and fills the cool setpoint from the
stored home cool setpoint (symmetrically in Cool mode); in every other
mode — e.g. Auto reached with only a single temperature, or Off — it
hits the uninitialized-local error before any Client mutation or shadow
update. -/
theorem set_temp_hold_totality (mode : HVACMode) (r : Record) (t : ℚ) :
    (mode = HVACMode.heat → Rec.contains r "cspHome" = true →
      entity_set_temp_hold mode r t =
        .proceeds (.rat t) (Rec.pyGet r "cspHome")) ∧
      (mode = HVACMode.cool → Rec.contains r "hspHome" = true →
        entity_set_temp_hold mode r t =
          .proceeds (Rec.pyGet r "hspHome") (.rat t)) ∧
      (mode ≠ HVACMode.heat → mode ≠ HVACMode.cool →
        entity_set_temp_hold mode r t = .unboundLocalError) ∧
      (entity_set_temperature_central HVACMode.auto r none none (some t) =
        .tempHold .unboundLocalError) ∧
      (entity_set_temperature_central HVACMode.off r none none (some t) =
        .tempHold .unboundLocalError) := by
  refine ⟨?_, ?_, ?_, ?_, ?_⟩
  · intro hm hc
    simp [entity_set_temp_hold, hm, hc]
  · intro hm hc
    simp [entity_set_temp_hold, hm, hc]
  · intro h1 h2
    simp [entity_set_temp_hold, h1, h2]
  · simp [entity_set_temperature_central, entity_set_temp_hold]
  · simp [entity_set_temperature_central, entity_set_temp_hold]

/-- Witness for C10: in Heat mode with a stored home cool setpoint the
call proceeds with the given heat temperature; in Auto mode with only a
single temperature it reaches the uninitialized-local error. -/
theorem set_temp_hold_totality_witness :
    entity_set_temp_hold HVACMode.heat [("cspHome", Value.int 24)] 21 =
        .proceeds (.rat 21) (Value.int 24) ∧
      entity_set_temp_hold HVACMode.auto [("cspHome", Value.int 24)] 21 =
        .unboundLocalError := by
  have h := set_temp_hold_totality HVACMode.heat [("cspHome", Value.int 24)] 21
  have h2 := set_temp_hold_totality HVACMode.auto [("cspHome", Value.int 24)] 21
  exact ⟨h.1 rfl (by decide), h2.2.2.1 (by decide) (by decide)⟩

/-!
The mutation transport `DaikinSkyport.make_request` (daikinskyport.py
lines 399-428).  Python is dynamically typed, and the source's
refresh-retry call at lines 422-423 is
`self.make_request(body, deviceID, log_msg_action, retry_count=...)`,
passing the request body where the positional `index` parameter goes
and the device id where `body` goes.  The embedding therefore types the
first two parameters as dynamic arguments.
-/

/-- Response of one PUT attempt: 2xx, 401 with a structured error body,
another status, or a transport failure (RequestException). -/
inductive HttpResp where
  | ok
  | e401 (errorLabel : String)
  | other (code : ℕ)
  | transportFail
deriving DecidableEq, Repr

/-- A dynamically typed Python argument to `make_request`: the intended
list index, or a dict, or a plain value such as a device-id string. -/
inductive PyArg where
  | intArg (n : ℕ)
  | dictArg (r : Record)
  | valArg (v : Value)
deriving DecidableEq, Repr

/-- How one `make_request` call ends: returning the 2xx response,
returning `None`, or raising while indexing `self.thermostats` with a
non-integer (`TypeError`) or out-of-range (`IndexError`) argument. -/
inductive MRResult where
  | success
  | noneResult
  | typeError
  | indexError
deriving DecidableEq, Repr

/-- Observable trace of a `make_request` call: each PUT attempt (the
device id in the URL and the JSON body sent) and the number of
`refresh_tokens` calls. -/
structure MRTrace where
  puts : List (Value × PyArg)
  refreshes : ℕ
deriving DecidableEq, Repr

/-- One activation of `make_request` (daikinskyport.py lines 399-428)
over a response oracle: `resp n` answers the n-th PUT of the trace and
`refreshOk` is the result of `refresh_tokens()`.  The fuel only bounds
the recursion depth; the 401 branch requires `retry_count == 0` and
recurses with `retry_count + 1`, so depth 2 is never exhausted. -/
def make_request_aux (ts : List Record) (refreshOk : Bool)
    (resp : ℕ → HttpResp) :
    ℕ → PyArg → PyArg → ℕ → MRTrace → MRResult × MRTrace
  | 0, _, _, _, tr => (.noneResult, tr)
  | fuel + 1, index, body, retryCount, tr =>
    match index with
    | .intArg i =>
      if h : i < ts.length then
        let deviceID := Rec.pyGet (ts.get ⟨i, h⟩) "id"
        let tr2 : MRTrace := ⟨tr.puts ++ [(deviceID, body)], tr.refreshes⟩
        match resp tr.puts.length with
        | .transportFail => (.noneResult, tr2)
        | .ok => (.success, tr2)
        | .e401 lbl =>
          if retryCount = 0 ∧ lbl = "authorization_expired" then
            if refreshOk then
              make_request_aux ts refreshOk resp fuel body (.valArg deviceID)
                (retryCount + 1) ⟨tr2.puts, tr2.refreshes + 1⟩
            else (.noneResult, ⟨tr2.puts, tr2.refreshes + 1⟩)
          else (.noneResult, tr2)
        | .other _ => (.noneResult, tr2)
      else (.indexError, tr)
    | _ => (.typeError, tr)

/-- `DaikinSkyport.make_request(index, body, log_msg_action)` as called
by every mutation: integer index, dict body, retry count zero. -/
def make_request (ts : List Record) (refreshOk : Bool)
    (resp : ℕ → HttpResp) (index : ℕ) (body : Record) :
    MRResult × MRTrace :=
  make_request_aux ts refreshOk resp 2 (.intArg index) (.dictArg body) 0
    ⟨[], 0⟩

/-- C1 (code bug): a mutation whose first PUT is answered with HTTP 401
`authorization_expired`, with the token refresh succeeding and the
server ready to accept a retry, does not retry the same request once
and succeed as the spec requires.  The retry at daikinskyport.py
lines 422-423 swaps its positional arguments — `make_request(body,
deviceID, ...)` — so the retried activation indexes
`self.thermostats` with the request body dict and raises `TypeError`
after exactly one PUT and one refresh, never reissuing the request. -/
theorem make_request_retry_swaps_arguments :
    make_request [[("id", Value.str "device1")]] true
        (fun n => if n = 0 then HttpResp.e401 "authorization_expired"
          else HttpResp.ok) 0 [("mode", Value.int 1)] =
      (MRResult.typeError,
        ⟨[(Value.str "device1", PyArg.dictArg [("mode", Value.int 1)])],
         1⟩) := by
  rfl
